import Mathlib

/-!
Verification of the crypto arbitrage bot's core decision logic against its
natural-language specification.  The Python source is shallowly embedded:
prices and USD amounts become rationals, fallible collaborator calls become
`Option`/`Except` parameters, and the engine's order submissions are recorded
explicitly so theorems can speak about which orders are (not) placed.
-/

set_option maxRecDepth 8000

namespace ArbBot

/-- Order side of a submitted order request. -/
inductive Side
  | buy
  | sell
deriving DecidableEq, BEq, Repr

/-- A top-of-book order book as returned by `get_order_book`:
`bids`/`asks` are lists of `(price, quantity)` levels, best level first. -/
structure OrderBook where
  bids : List (ℚ × ℚ)
  asks : List (ℚ × ℚ)
deriving DecidableEq

/-- An opportunity dict as built by `AsyncArbitrageBot._scan_for_opportunities`
(`symbol`, `profit_usd`, `buy_exchange`, `buy_price`, `sell_exchange`, `sell_price`). -/
structure ScanOpp where
  symbol : String
  profitUsd : ℚ
  buyExchange : String
  buyPrice : ℚ
  sellExchange : String
  sellPrice : ℚ
deriving DecidableEq

/-- `RiskManager.can_deploy_capital` (risk_manager.py lines 75-98): if the
cached total portfolio value is non-positive it logs a warning and returns
`True`; otherwise it approves iff `deployed + size ≤ total * (maxPct / 100)`
(the code rejects when `potential > max_deployable`). -/
def canDeployCapital (maxPct totalPortfolioValue deployedCapital tradeSize : ℚ) : Bool :=
  if totalPortfolioValue ≤ 0 then
    true
  else
    let maxDeployable := totalPortfolioValue * (maxPct / 100)
    let potential := deployedCapital + tradeSize
    if potential > maxDeployable then false else true

/-- `RiskManager.check_balances` (risk_manager.py lines 157-210).
`buyClient`/`sellClient` model `get_client` returning a usable client;
`buyFreeQuote` is the free quote-currency balance fetched on the buy exchange
(`none` when the balance fetch returned nothing), `sellFreeBase` the free
base-currency balance on the sell exchange.  Returns `false` on any missing
client/balance, on `available_quote < required_quote`, and on
`available_base < required_base`; otherwise `true`. -/
def checkBalances (buyClient sellClient : Bool) (buyFreeQuote sellFreeBase : Option ℚ)
    (requiredQuote requiredBase : ℚ) : Bool :=
  if !buyClient || !sellClient then
    false
  else
    match buyFreeQuote, sellFreeBase with
    | some availableQuote, some availableBase =>
        if availableQuote < requiredQuote then false
        else if availableBase < requiredBase then false
        else true
    | _, _ => false

/-- `RiskManager.check_kill_switch` (risk_manager.py lines 216-242):
disabled (`false`) when the configured threshold is `≤ 0`; returns `false`
with a warning when the snapshot's total value is `≤ 0`; otherwise kills
(`true`) exactly when the value is strictly below the threshold. -/
def checkKillSwitch (threshold totalUsdValue : ℚ) : Bool :=
  if threshold ≤ 0 then false
  else if totalUsdValue ≤ 0 then false
  else if totalUsdValue < threshold then true
  else false

/-- The kill-switch branch of `AsyncArbitrageBot.run` (async_bot_engine.py
lines 60-65): when the kill check returns `True` the loop sets
`is_running = False`; otherwise the running flag is left as is. -/
def runLoopAfterKillCheck (isRunning kill : Bool) : Bool :=
  if kill then false else isRunning

/-! ## Opportunity scanner (`AsyncArbitrageBot._scan_for_opportunities`) -/

/-- One direction of the pairwise comparison (async_bot_engine.py lines
146-160 and 166-178): given the buy exchange's best ask and the sell
exchange's best bid, emit an opportunity when `sell_price > buy_price` and
the gross profit `(sell - buy) * (trade_size / buy)` strictly exceeds
`min_profit_usd`.  No fee is subtracted (the code comments that a "more
realistic version would subtract fees here"). -/
def directionOpps (tradeSizeUsdt minProfitUsd : ℚ) (symbol buyEx sellEx : String)
    (buyPrice sellPrice : ℚ) : List ScanOpp :=
  if sellPrice > buyPrice then
    if (sellPrice - buyPrice) * (tradeSizeUsdt / buyPrice) > minProfitUsd then
      [{ symbol := symbol,
         profitUsd := (sellPrice - buyPrice) * (tradeSizeUsdt / buyPrice),
         buyExchange := buyEx, buyPrice := buyPrice,
         sellExchange := sellEx, sellPrice := sellPrice }]
    else []
  else []

/-- The body of the double loop over one unordered exchange pair
(async_bot_engine.py lines 139-178).  If either book is missing, or
`book1.asks` or `book2.bids` is empty, both directions are skipped
(`continue`); the reverse direction additionally needs `book2.asks` and
`book1.bids` non-empty. -/
def pairOpps (tradeSizeUsdt minProfitUsd : ℚ) (symbol ex1 ex2 : String)
    (b1 b2 : Option OrderBook) : List ScanOpp :=
  match b1, b2 with
  | some book1, some book2 =>
    match book1.asks, book2.bids with
    | ask1 :: _, bid2 :: _ =>
        directionOpps tradeSizeUsdt minProfitUsd symbol ex1 ex2 ask1.1 bid2.1 ++
        (match book2.asks, book1.bids with
         | ask2 :: _, bid1 :: _ =>
             directionOpps tradeSizeUsdt minProfitUsd symbol ex2 ex1 ask2.1 bid1.1
         | _, _ => [])
    | _, _ => []
  | _, _ => []

/-- All ordered index pairs `i < j` of a list, as the Python
`for i in range(n): for j in range(i+1, n)` loop visits them. -/
def orderedPairs {α : Type} : List α → List (α × α)
  | [] => []
  | x :: xs => xs.map (fun y => (x, y)) ++ orderedPairs xs

/-- The scan of one symbol across all exchange pairs. -/
def scanSymbol (tradeSizeUsdt minProfitUsd : ℚ) (symbol : String)
    (books : List (String × Option OrderBook)) : List ScanOpp :=
  (orderedPairs books).flatMap fun p =>
    pairOpps tradeSizeUsdt minProfitUsd symbol p.1.1 p.2.1 p.1.2 p.2.2

/-- `AsyncArbitrageBot._scan_for_opportunities` (async_bot_engine.py lines
118-181): returns `[]` with fewer than two exchanges, otherwise collects the
pairwise opportunities for every symbol (each symbol's order books fetched
per exchange, `none` on a failed fetch) and sorts descending by
`profit_usd`. -/
def scanForOpportunities (tradeSizeUsdt minProfitUsd : ℚ) (exIds : List String)
    (symbolBooks : List (String × (String → Option OrderBook))) : List ScanOpp :=
  if exIds.length < 2 then []
  else
    (symbolBooks.flatMap fun sb =>
        scanSymbol tradeSizeUsdt minProfitUsd sb.1
          (exIds.map fun e => (e, sb.2 e))).insertionSort
      fun a b => b.profitUsd ≤ a.profitUsd

/-- Modelled from the spec: the net profit the specification describes for the
scanner, "compute achievable buy price (ask) and sell price (bid), subtract
each side's effective taker fee ... compute netProfit", with one effective
taker-fee percentage applied to each side's notional.  This definition follows
the spec's words so it can be compared with `directionOpps`, which the source
actually computes (the source subtracts no fee). -/
def specNetProfitUsd (feePercent buyPrice sellPrice amountBase : ℚ) : ℚ :=
  (sellPrice - buyPrice) * amountBase
    - buyPrice * amountBase * (feePercent / 100)
    - sellPrice * amountBase * (feePercent / 100)

/-! ## Async execution (`AsyncArbitrageBot._execute_arbitrage`) -/

/-- An order request as passed to `AsyncExchangeManager.create_order`. -/
structure OrderReq where
  exchange : String
  symbol : String
  side : Side
  amount : ℚ
deriving DecidableEq, BEq

/-- A ccxt order dict, reduced to the fields the engine reads. -/
structure Order where
  id : String
  filled : ℚ
deriving DecidableEq

/-- Whether a gathered task outcome is a captured exception
(`isinstance(result, Exception)`). -/
def outcomeFailed {α : Type} : Except String α → Bool
  | .error _ => true
  | .ok _ => false

/-- Everything observable about one `_execute_arbitrage` call. -/
structure AsyncExecResult where
  submitted : List OrderReq
  buyResult : Except String Order
  sellResult : Except String Order
  imbalanceDetected : Bool
  tradesExecutedDelta : Nat

/-- `AsyncArbitrageBot._execute_arbitrage` (async_bot_engine.py lines
184-228): computes `trade_amount_base = trade_size_usdt / buy_price`, creates
the buy and sell market orders concurrently, gathers both with
`return_exceptions=True` (so `buyOutcome`/`sellOutcome` are both delivered,
exceptions captured as values), logs each, flags an imbalance exactly when
one leg failed and the other did not, and increments `trades_executed`.
No other order is ever created: the neutralization branch only logs
(lines 224-226). -/
def executeArbitrage (tradeSizeUsdt : ℚ) (symbol buyEx sellEx : String) (buyPrice : ℚ)
    (buyOutcome sellOutcome : Except String Order) : AsyncExecResult :=
  let tradeAmountBase := tradeSizeUsdt / buyPrice
  { submitted := [{ exchange := buyEx, symbol := symbol, side := .buy, amount := tradeAmountBase },
                  { exchange := sellEx, symbol := symbol, side := .sell, amount := tradeAmountBase }]
    buyResult := buyOutcome
    sellResult := sellOutcome
    imbalanceDetected := outcomeFailed buyOutcome != outcomeFailed sellOutcome
    tradesExecutedDelta := 1 }

/-! ## Synchronous executor (`core/trade_executor.py`) -/

/-- The per-leg result dict `_place_and_wait` returns. -/
structure SyncLegResult where
  orderId : String
  exchange : String
  side : Side
  status : String
deriving DecidableEq

/-- The dict `execute_and_monitor_opportunity` returns, plus the list of
orders physically submitted during the call (an exception out of
`_place_and_wait` means that leg's order was never placed: every raise in it
happens at or before `create_order`). -/
structure SyncExecResult where
  status : String
  leg1 : Option SyncLegResult
  leg2 : Option SyncLegResult
  submitted : List OrderReq
  error : Option String
deriving DecidableEq

/-- `TradeExecutor.execute_and_monitor_opportunity` (core/trade_executor.py
lines 73-110): places and monitors leg 1 (buy), then — only if no stop was
requested meanwhile — places and monitors leg 2 (sell).  A stop after leg 1
returns `{"status": "stopped", "leg1": ...}`; an exception anywhere returns
`{"status": "failed", "error": ...}`.  There is no compensation path.
`leg1Outcome`/`leg2Outcome` are the results of the blocking `_place_and_wait`
calls; `stopAfterLeg1` is whether `request_stop` arrived before the
`is_stopping()` check between the legs. -/
def executeAndMonitorOpportunity (symbol buyEx sellEx : String) (amount : ℚ)
    (leg1Outcome : Except String SyncLegResult) (stopAfterLeg1 : Bool)
    (leg2Outcome : Except String SyncLegResult) : SyncExecResult :=
  match leg1Outcome with
  | .error e =>
      { status := "failed", leg1 := none, leg2 := none, submitted := [], error := some e }
  | .ok r1 =>
      if stopAfterLeg1 then
        { status := "stopped", leg1 := some r1, leg2 := none,
          submitted := [{ exchange := buyEx, symbol := symbol, side := .buy, amount := amount }],
          error := none }
      else
        match leg2Outcome with
        | .error e =>
            { status := "failed", leg1 := none, leg2 := none,
              submitted := [{ exchange := buyEx, symbol := symbol, side := .buy, amount := amount }],
              error := some e }
        | .ok r2 =>
            { status := "filled", leg1 := some r1, leg2 := some r2,
              submitted := [{ exchange := buyEx, symbol := symbol, side := .buy, amount := amount },
                            { exchange := sellEx, symbol := symbol, side := .sell, amount := amount }],
              error := none }

/-! ## Engine-level trade concurrency guard (`bot_engine.py`) -/

/-- The engine's trade-progress state: how many trade attempts are running
(`TradeExecutor._busy` is set on entry and cleared in the `finally`;
`ArbitrageBot._is_trade_in_progress` consults it, falling back to the
engine trade lock). -/
structure EngineTradeState where
  inProgress : Nat
deriving DecidableEq

/-- Events at the engine's decision level. -/
inductive EngineEvent
  | tryStart
  | finish
deriving DecidableEq

/-- One decision step of `ArbitrageBot._try_execute_first_safe`
(bot_engine.py lines 250-332): a start request while a trade is in progress
returns immediately (no new attempt; second component `false`); otherwise
the attempt starts under `_trade_lock` with the executor marked busy.
`finish` is the `finally` clearing of the busy flag.  The guard check and
the lock acquisition are serialized by the engine's single decision thread
and `_trade_lock`, so a step is atomic here. -/
def engineStep (s : EngineTradeState) : EngineEvent → EngineTradeState × Bool
  | .tryStart =>
      if s.inProgress ≥ 1 then (s, false)
      else ({ inProgress := s.inProgress + 1 }, true)
  | .finish => ({ inProgress := s.inProgress - 1 }, false)

/-- Run the engine guard from its initial state (no trade in progress). -/
def engineRun (evs : List EngineEvent) : EngineTradeState :=
  evs.foldl (fun s e => (engineStep s e).1) { inProgress := 0 }

/-! ## Rebalancer (`core/rebalancer.py`) -/

/-- The per-asset decision and sizing inside the asset loop of
`Rebalancer.run_rebalancing_check` (core/rebalancer.py lines 64-92):
`current_pct = value_usd / total * 100`; only when
`current_pct > target_pct + threshold` is a sale attempted; a missing or
zero price (`if not price`) skips the asset; otherwise the amount to sell is
`surplus_usd / price` with `surplus_usd = value_usd - total * target_pct / 100`. -/
def rebalanceSellAmount (totalValue valueUsd targetPct threshold : ℚ)
    (price : Option ℚ) : Option ℚ :=
  let currentPct := valueUsd / totalValue * 100
  if currentPct > targetPct + threshold then
    match price with
    | none => none
    | some p =>
        if p = 0 then none
        else some ((valueUsd - totalValue * targetPct / 100) / p)
  else none

/-- The guards wrapped around the asset loop (core/rebalancer.py lines
34-66): rebalancing must be enabled, the total portfolio value positive,
and the quote asset `USDT` itself is never rebalanced. -/
def runRebalancingCheckAsset (enabled : Bool) (asset : String)
    (totalValue valueUsd targetPct threshold : ℚ) (price : Option ℚ) : Option ℚ :=
  if !enabled then none
  else if totalValue ≤ 0 then none
  else if asset = "USDT" then none
  else rebalanceSellAmount totalValue valueUsd targetPct threshold price

/-! ## Helper lemmas -/

/-- Any opportunity produced by one direction of the comparison carries a
gross profit that strictly exceeds the configured minimum, and that profit is
`(sell - buy) * (tradeSize / buy)` of its own prices. -/
theorem mem_directionOpps {t m : ℚ} {symbol bx sx : String} {bp sp : ℚ} {o : ScanOpp}
    (h : o ∈ directionOpps t m symbol bx sx bp sp) :
    o.profitUsd > m ∧ o.profitUsd = (o.sellPrice - o.buyPrice) * (t / o.buyPrice) := by
  unfold directionOpps at h
  split at h
  · split at h
    · rename_i hprof
      simp only [List.mem_singleton] at h
      subst h
      exact ⟨hprof, rfl⟩
    · simp at h
  · simp at h

/-- The same property for the opportunities of one exchange pair. -/
theorem mem_pairOpps {t m : ℚ} {symbol e1 e2 : String} {b1 b2 : Option OrderBook} {o : ScanOpp}
    (h : o ∈ pairOpps t m symbol e1 e2 b1 b2) :
    o.profitUsd > m ∧ o.profitUsd = (o.sellPrice - o.buyPrice) * (t / o.buyPrice) := by
  unfold pairOpps at h
  split at h
  · split at h
    · rcases List.mem_append.mp h with h1 | h2
      · exact mem_directionOpps h1
      · split at h2
        · exact mem_directionOpps h2
        · simp at h2
    · simp at h
  · simp at h

/-- The same property for the scan of one symbol. -/
theorem mem_scanSymbol {t m : ℚ} {symbol : String}
    {books : List (String × Option OrderBook)} {o : ScanOpp}
    (h : o ∈ scanSymbol t m symbol books) :
    o.profitUsd > m ∧ o.profitUsd = (o.sellPrice - o.buyPrice) * (t / o.buyPrice) := by
  unfold scanSymbol at h
  rcases List.mem_flatMap.mp h with ⟨p, _, hmem⟩
  exact mem_pairOpps hmem

/-- The engine guard keeps `inProgress ≤ 1` along any event list, from any
state already satisfying the bound. -/
theorem engineFoldInvariant (evs : List EngineEvent) (s : EngineTradeState)
    (hs : s.inProgress ≤ 1) :
    (evs.foldl (fun s e => (engineStep s e).1) s).inProgress ≤ 1 := by
  induction evs generalizing s with
  | nil => exact hs
  | cons e evs ih =>
    refine ih _ ?_
    cases e with
    | tryStart =>
      by_cases h : s.inProgress ≥ 1
      · simpa [engineStep, h] using hs
      · simp only [engineStep, if_neg h]
        omega
    | finish =>
      simp only [engineStep]
      omega

/-! ## Claims -/

/-- C1: the specification requires that when exactly one leg terminally fills
and the other fails, the engine submit an opposite-side market order on the
successful leg's exchange sized to the actual filled amount.  The code
detects the imbalance and logs at CRITICAL, but submits no compensating
order at all: at the failing input (buy leg filled on binance, sell leg
raised on okx) the only orders ever created are the two original legs, and
no sell order on the buy exchange exists among them. -/
theorem c1_imbalance_without_compensation :
    (executeArbitrage 100 "BTC/USDT" "binance" "okx" 100
        (Except.ok { id := "b1", filled := 1 }) (Except.error "sell leg raised")).imbalanceDetected
      = true
    ∧ (executeArbitrage 100 "BTC/USDT" "binance" "okx" 100
        (Except.ok { id := "b1", filled := 1 }) (Except.error "sell leg raised")).submitted
      = [{ exchange := "binance", symbol := "BTC/USDT", side := Side.buy, amount := 1 },
         { exchange := "okx", symbol := "BTC/USDT", side := Side.sell, amount := 1 }]
    ∧ ((executeArbitrage 100 "BTC/USDT" "binance" "okx" 100
        (Except.ok { id := "b1", filled := 1 }) (Except.error "sell leg raised")).submitted.all
        fun o => !(o.exchange == "binance" && o.side == Side.sell)) = true := by
  refine ⟨rfl, ?_, ?_⟩
  · with_unfolding_all decide
  · with_unfolding_all decide

/-- C2 counterexample: the claim says a non-positive (unknown) portfolio
value makes `can_deploy_capital` reject; at portfolio value `0`, deployed
`$200`, requested `$100`, the code returns `True` (allows). -/
theorem c2_counterexample : canDeployCapital 25 0 200 100 = true := by
  with_unfolding_all decide

/-- C2 (amended): when the total portfolio value is non-positive (unknown),
`can_deploy_capital` fails open — it logs a warning and returns `True` for
every requested trade size, rather than rejecting. -/
theorem canDeployCapital_fails_open_on_unknown_portfolio
    (maxPct v d s : ℚ) (hv : v ≤ 0) : canDeployCapital maxPct v d s = true := by
  simp [canDeployCapital, hv]

/-- C2 witness: the amended behaviour at a concrete input. -/
theorem c2_witness : canDeployCapital 10 (-5) 0 50 = true :=
  canDeployCapital_fails_open_on_unknown_portfolio 10 (-5) 0 50 (by norm_num)

/-- C3: with a known positive portfolio value `v`, `can_deploy_capital`
approves exactly when `deployed + size ≤ v * (maxPct / 100)`. -/
theorem canDeployCapital_spec (maxPct v d s : ℚ) (hv : 0 < v) :
    canDeployCapital maxPct v d s = true ↔ d + s ≤ v * (maxPct / 100) := by
  rcases le_or_lt (d + s) (v * (maxPct / 100)) with h | h
  · simp [canDeployCapital, not_le.mpr hv, not_lt.mpr h, h]
  · simp [canDeployCapital, not_le.mpr hv, h, h.not_le]

/-- C3 witness: Scenario C — portfolio `$1000`, limit `25%`, deployed
`$200`: a further `$100` is rejected because `$300 > $250`. -/
theorem c3_witness :
    canDeployCapital 25 1000 200 100 = false ∧
    (canDeployCapital 25 1000 200 100 = true ↔ (200 : ℚ) + 100 ≤ 1000 * (25 / 100)) :=
  ⟨by with_unfolding_all decide, canDeployCapital_spec 25 1000 200 100 (by norm_num)⟩

/-- C7 counterexample: the claim says a snapshot value below a configured
positive floor triggers the kill switch; with floor `$100` and snapshot value
`$0` — below the floor — `check_kill_switch` returns `False` (it refuses to
evaluate on a non-positive value). -/
theorem c7_counterexample : checkKillSwitch 100 0 = false ∧ (0 : ℚ) < 100 := by
  constructor
  · with_unfolding_all decide
  · norm_num

/-- C7 (amended): `check_kill_switch` returns `true` exactly when the
configured floor is positive and the snapshot's total value is positive yet
strictly below the floor; with a non-positive snapshot value it returns
`false` even though that value is below any positive floor.  When the check
returns `true`, the async run loop clears its running flag. -/
theorem checkKillSwitch_spec :
    (∀ threshold v : ℚ,
        checkKillSwitch threshold v = true ↔ 0 < threshold ∧ 0 < v ∧ v < threshold)
    ∧ ∀ b : Bool, runLoopAfterKillCheck b true = false := by
  constructor
  · intro th v
    by_cases h1 : th ≤ 0
    · simp [checkKillSwitch, h1, not_lt.mpr h1]
    · by_cases h2 : v ≤ 0
      · simp [checkKillSwitch, h1, h2, not_lt.mpr h2]
      · by_cases h3 : v < th
        · simp [checkKillSwitch, h1, h2, h3, not_le.mp h1, not_le.mp h2]
        · simp [checkKillSwitch, h1, h2, h3]
  · intro b
    rfl

/-- Order books for a two-exchange scenario: binance bid 99 / ask 100,
okx bid 103 / ask 104 (Scenario A's shape). -/
def demoBooks : String → Option OrderBook := fun e =>
  if e = "binance" then some { bids := [(99, 1)], asks := [(100, 1)] }
  else if e = "okx" then some { bids := [(103, 1)], asks := [(104, 1)] }
  else none

/-- Order books where the gross edge is thinner than the round-trip taker
fees: binance ask 100, okx bid 100.2 (= 501/5). -/
def thinEdgeBooks : String → Option OrderBook := fun e =>
  if e = "binance" then some { bids := [(99, 1)], asks := [(100, 1)] }
  else if e = "okx" then some { bids := [(501/5, 1)], asks := [(101, 1)] }
  else none

/-- C4 (amended): every opportunity the scanner surfaces has
`profit_usd > min_profit_usd`, but that profit is the **gross** spread
`(sell - buy) * (tradeSize / buy)` — the scanner subtracts no fee
(async_bot_engine.py line 154: "A more realistic version would subtract
fees here"). -/
theorem scanned_opportunity_profit (t m : ℚ) (exIds : List String)
    (symbolBooks : List (String × (String → Option OrderBook))) (o : ScanOpp)
    (ho : o ∈ scanForOpportunities t m exIds symbolBooks) :
    o.profitUsd > m ∧ o.profitUsd = (o.sellPrice - o.buyPrice) * (t / o.buyPrice) := by
  unfold scanForOpportunities at ho
  split at ho
  · simp at ho
  · rcases List.mem_flatMap.mp ((List.mem_insertionSort _).mp ho) with ⟨sb, _, h2⟩
    exact mem_scanSymbol h2

/-- C4 counterexample: with trade size `$100`, threshold `$0.10` and a
`0.1%` effective taker fee per side, the scanner surfaces the opportunity
buy binance @ 100 / sell okx @ 100.2, whose gross profit is `$0.20`, yet the
spec's net profit after both fees is `-$0.0002 ≤ $0.10`: surfaced
opportunities do not satisfy `netProfit > minProfitUsd` once fees are
subtracted, because the code filters on gross profit. -/
theorem c4_counterexample :
    ({ symbol := "BTC/USDT", profitUsd := 1/5, buyExchange := "binance", buyPrice := 100,
       sellExchange := "okx", sellPrice := 501/5 } : ScanOpp)
      ∈ scanForOpportunities 100 (1/10) ["binance", "okx"] [("BTC/USDT", thinEdgeBooks)]
    ∧ specNetProfitUsd (1/10) 100 (501/5) (100 / 100) ≤ 1/10 := by
  constructor
  · with_unfolding_all decide
  · with_unfolding_all decide

/-- C4 witness: the amended theorem applied to the concrete surfaced
opportunity of the two-exchange scenario. -/
theorem c4_witness :
    ({ symbol := "BTC/USDT", profitUsd := 3, buyExchange := "binance", buyPrice := 100,
       sellExchange := "okx", sellPrice := 103 } : ScanOpp).profitUsd > (1/10 : ℚ)
    ∧ ({ symbol := "BTC/USDT", profitUsd := 3, buyExchange := "binance", buyPrice := 100,
         sellExchange := "okx", sellPrice := 103 } : ScanOpp).profitUsd
      = (((103 : ℚ) - 100) * (100 / 100)) :=
  scanned_opportunity_profit 100 (1/10) ["binance", "okx"] [("BTC/USDT", demoBooks)]
    { symbol := "BTC/USDT", profitUsd := 3, buyExchange := "binance", buyPrice := 100,
      sellExchange := "okx", sellPrice := 103 }
    (by with_unfolding_all decide)

/-- C5 counterexample: the claim says an insufficient-sell-inventory
rejection places a cooldown on (asset, sellExchange) that suppresses such
opportunities until it expires.  No cooldown exists anywhere in the code:
here `check_balances` rejects a trade selling BTC on okx for insufficient
base inventory (`0.001 < 0.0025` with ample quote balance), yet the scanner
— which takes no cooldown state at all — surfaces an opportunity selling
BTC on okx again immediately afterwards. -/
theorem c5_counterexample :
    checkBalances true true (some 1000) (some (1/1000)) 100 (1/400) = false
    ∧ (1/1000 : ℚ) < 1/400
    ∧ (100 : ℚ) ≤ 1000
    ∧ ({ symbol := "BTC/USDT", profitUsd := 3, buyExchange := "binance", buyPrice := 100,
         sellExchange := "okx", sellPrice := 103 } : ScanOpp)
        ∈ scanForOpportunities 100 (1/10) ["binance", "okx"] [("BTC/USDT", demoBooks)]
    ∧ ({ symbol := "BTC/USDT", profitUsd := 3, buyExchange := "binance", buyPrice := 100,
         sellExchange := "okx", sellPrice := 103 } : ScanOpp).sellExchange = "okx" := by
  refine ⟨?_, ?_, ?_, ?_, rfl⟩
  · with_unfolding_all decide
  · with_unfolding_all decide
  · with_unfolding_all decide
  · with_unfolding_all decide

/-- C5 (amended): a pre-trade check that finds insufficient sell-side base
inventory (with the quote side sufficient) rejects that one trade — it
returns `false` — but places no cooldown; the scanner has no suppression
input, so nothing prevents the same (asset, exchange) from being surfaced
in the very next cycle. -/
theorem checkBalances_insufficient_base_rejects (aq ab rq rb : ℚ)
    (hq : rq ≤ aq) (hb : ab < rb) :
    checkBalances true true (some aq) (some ab) rq rb = false := by
  simp [checkBalances, not_lt.mpr hq, hb]

/-- C5 witness: the amended rejection at the counterexample's numbers. -/
theorem c5_witness :
    checkBalances true true (some 2000) (some (1/500)) 150 (3/400) = false :=
  checkBalances_insufficient_base_rejects 2000 (1/500) 150 (3/400)
    (by norm_num) (by norm_num)

/-- C6 counterexample: the claim says an exception on one leg never prevents
the other leg from being awaited and observed.  In the synchronous
`TradeExecutor.execute_and_monitor_opportunity` the legs are strictly
sequential: when the buy leg raises, the call returns `"failed"` having
submitted no order, and the sell leg's outcome is never observed. -/
theorem c6_counterexample :
    (executeAndMonitorOpportunity "BTC/USDT" "binance" "okx" (1/400)
        (Except.error "buy leg raised") false
        (Except.ok { orderId := "s1", exchange := "okx", side := Side.sell,
                     status := "closed" })).status = "failed"
    ∧ (executeAndMonitorOpportunity "BTC/USDT" "binance" "okx" (1/400)
        (Except.error "buy leg raised") false
        (Except.ok { orderId := "s1", exchange := "okx", side := Side.sell,
                     status := "closed" })).leg2 = none
    ∧ (executeAndMonitorOpportunity "BTC/USDT" "binance" "okx" (1/400)
        (Except.error "buy leg raised") false
        (Except.ok { orderId := "s1", exchange := "okx", side := Side.sell,
                     status := "closed" })).submitted = [] :=
  ⟨rfl, rfl, rfl⟩

/-- C6 (amended): in the async engine both legs are gathered with
`return_exceptions=True`, so each leg's outcome is recorded unchanged —
one leg's failure cannot hide the other's outcome — and the imbalance
decision is computed from both outcomes; in the synchronous `TradeExecutor`,
by contrast, the legs are sequential and a buy-leg exception means the sell
leg is never submitted or observed. -/
theorem async_legs_isolated_sync_sequential :
    (∀ (t : ℚ) (sym bx sx : String) (bp : ℚ) (bo so : Except String Order),
        (executeArbitrage t sym bx sx bp bo so).buyResult = bo
        ∧ (executeArbitrage t sym bx sx bp bo so).sellResult = so
        ∧ (executeArbitrage t sym bx sx bp bo so).imbalanceDetected
            = (outcomeFailed bo != outcomeFailed so))
    ∧ (∀ (sym bx sx : String) (a : ℚ) (e : String) (l2 : Except String SyncLegResult),
        (executeAndMonitorOpportunity sym bx sx a (Except.error e) false l2).submitted = []
        ∧ (executeAndMonitorOpportunity sym bx sx a (Except.error e) false l2).leg2 = none) :=
  ⟨fun _ _ _ _ _ _ _ => ⟨rfl, rfl, rfl⟩, fun _ _ _ _ _ _ => ⟨rfl, rfl⟩⟩

/-- C8: for a non-quote asset in a portfolio of positive total value and a
positive price, the rebalancer decides to sell exactly when
`currentPct > target + threshold`, and then sells
`(valueUsd - total * target / 100) / price` of the base asset. -/
theorem rebalancer_sells_only_above_threshold (asset : String)
    (total vUsd target thr p : ℚ) (htotal : 0 < total) (hasset : asset ≠ "USDT")
    (hp : 0 < p) :
    runRebalancingCheckAsset true asset total vUsd target thr (some p)
      = if vUsd / total * 100 > target + thr
        then some ((vUsd - total * target / 100) / p)
        else none := by
  by_cases hc : vUsd / total * 100 > target + thr
  · simp [runRebalancingCheckAsset, rebalanceSellAmount, not_le.mpr htotal, hasset, hc, hp.ne']
  · simp [runRebalancingCheckAsset, rebalanceSellAmount, not_le.mpr htotal, hasset, hc]

/-- C8 witness: Scenario D — BTC worth `$300` of a `$1000` portfolio (30%),
target 15%, threshold 5%, price `$40000`: the rebalancer fires and the sell
amount is exactly `0.00375 = 3/800` BTC. -/
theorem c8_witness :
    runRebalancingCheckAsset true "BTC" 1000 300 15 5 (some 40000) = some (3/800) := by
  rw [rebalancer_sells_only_above_threshold "BTC" 1000 300 15 5 40000
      (by norm_num) (by with_unfolding_all decide) (by norm_num)]
  with_unfolding_all decide

/-- C9: along any sequence of engine events, at most one trade attempt is
ever in progress, and while one is in progress a request to start another is
rejected: the state is unchanged and no attempt starts. -/
theorem at_most_one_trade_in_flight (evs : List EngineEvent) :
    (engineRun evs).inProgress ≤ 1
    ∧ ((engineRun evs).inProgress = 1 →
        engineStep (engineRun evs) EngineEvent.tryStart = (engineRun evs, false)) := by
  constructor
  · exact engineFoldInvariant evs { inProgress := 0 } (by norm_num)
  · intro h1
    simp [engineStep, h1]

/-- C10: in the synchronous executor, with a completed buy leg and a stop
requested before the sell leg, the call returns status `"stopped"` carrying
only the buy-leg result: the sell leg is never submitted, and no
compensating order exists — the only order submitted is the buy leg. -/
theorem stop_after_buy_leg_leaves_one_sided (sym bx sx : String) (a : ℚ)
    (r1 : SyncLegResult) (l2 : Except String SyncLegResult) :
    executeAndMonitorOpportunity sym bx sx a (Except.ok r1) true l2
      = { status := "stopped", leg1 := some r1, leg2 := none,
          submitted := [{ exchange := bx, symbol := sym, side := Side.buy, amount := a }],
          error := none } :=
  rfl

end ArbBot
